import Mathlib

/-!
# Verification of the job-scraper reconciliation core

Shallow embedding of the reconciliation / rotation / persistence logic of
the scrapers in `src/` (bdjobs.py, shomvob.py, careerjet.py, linkedin.py),
together with proofs about the spec's claims.

External I/O (browser automation, HTTP, HTML parsing, hashing) is modelled
by explicit function parameters; machine-level effects (file system) are
modelled as values: a run returns the ordered list of file writes it
performs.
-/

namespace JobScraper

/-- Truthiness of a Python `str or default` expression: first operand if
non-empty, else the second.  Embeds `a or b` for strings. -/
def pyOr (a b : String) : String :=
  if a = "" then b else a

/-- Python `str.lower()` over the character sequence (the data here is
ASCII, where `Char.toLower` agrees with Python). -/
def pyLower (s : String) : String :=
  String.mk (s.toList.map Char.toLower)

/-- Python `str.strip()`: remove leading and trailing whitespace. -/
def pyStrip (s : String) : String :=
  String.mk (((s.toList.dropWhile Char.isWhitespace).reverse.dropWhile
    Char.isWhitespace).reverse)

/-- Truthiness of an optional string field (`None` and `""` are falsy). -/
def pyTruthy (o : Option String) : Bool :=
  match o with
  | some s => s ≠ ""
  | none => false

/-- The files a run writes (snapshot, added delta, removed delta, rotation
state). -/
inductive FileId
  | output
  | added
  | removed
  | state
deriving DecidableEq, Repr

/-- On-disk state of the snapshot file seen by `load_existing_jobs`:
missing, unparseable JSON, or a valid list of records. -/
inductive SnapshotFile (α : Type)
  | missing
  | invalid
  | valid (jobs : List α)

/-- Embeds `load_existing_jobs` (bdjobs.py:16-24, shomvob.py:17-25,
careerjet.py:296-304, linkedin.py:189-197): returns `[]` when the file is
missing (`os.path.exists` false) or raises `json.JSONDecodeError`,
otherwise the parsed list. -/
def load_existing_jobs {α : Type} : SnapshotFile α → List α
  | .missing => []
  | .invalid => []
  | .valid jobs => jobs

/-- Embeds the partial-scrape safety-guard condition
`if existing_urls and len(current_urls) < len(existing_urls) * 0.5`
(bdjobs.py:167, shomvob.py:373, careerjet.py:552, over identity sets). -/
def safety_guard (existing_ids current_ids : Finset String) : Bool :=
  decide existing_ids.Nonempty &&
    decide ((current_ids.card : ℚ) < (existing_ids.card : ℚ) * 0.5)

/-- The three identity sets a run derives from discovery and the snapshot. -/
structure Diff where
  new_ids : Finset String
  removed_ids : Finset String
  unchanged : Finset String
deriving DecidableEq

/-- Embeds the diff computation plus the guard override
(bdjobs.py:159-170, shomvob.py:364-376):
`new = current - existing`, `removed = existing - current` (reset to `∅`
when the safety guard fires), `unchanged = existing ∩ current`. -/
def reconcile (existing_ids current_ids : Finset String) : Diff :=
  { new_ids := current_ids \ existing_ids
    removed_ids :=
      if safety_guard existing_ids current_ids then ∅ else existing_ids \ current_ids
    unchanged := existing_ids ∩ current_ids }

/-- Embeds `removed_jobs = [j for j in existing_jobs if key(j) in removed]`
guarded by `if removed:` (bdjobs.py:177-182, shomvob.py:383-388). -/
def phase2_removed {α : Type} (key : α → String) (jobs : List α)
    (removed_ids : Finset String) : List α :=
  if removed_ids.Nonempty then jobs.filter (fun j => key j ∈ removed_ids) else []

/-- Embeds `existing_jobs = [j for j in existing_jobs if key(j) not in removed]`
guarded by `if removed:` (bdjobs.py:183, shomvob.py:389). -/
def phase2_kept {α : Type} (key : α → String) (jobs : List α)
    (removed_ids : Finset String) : List α :=
  if removed_ids.Nonempty then jobs.filter (fun j => key j ∉ removed_ids) else jobs

/-- Contract of the list produced by iterating a Python `set`: some
enumeration of the distinct elements, in an unspecified order. -/
def SetContract (f : List String → List String) : Prop :=
  ∀ l : List String, (f l).Nodup ∧ ∀ x, x ∈ f l ↔ x ∈ l

end JobScraper

namespace Bdjobs

open JobScraper

/-- A bdjobs record: the dict built by `extract_job` (bdjobs.py:49-59) —
a `url` key plus source-specific fields that may be `None`. -/
structure Job where
  url : String
  fields : List (String × Option String)
deriving DecidableEq, Repr

/-- `{job["url"] for job in jobs}` (bdjobs.py:137). -/
def urlSet (jobs : List Job) : Finset String :=
  (jobs.map (·.url)).toFinset

/-- Embeds `worker` (bdjobs.py:118-131): drains the queue; on success the
record built by `extract_job` (whose `url` key is the queue url) is
appended to `results`; on exception the item is logged and dropped.
`fetch` stands for the per-url detail-page fetch/parse, `.error` for a
raised exception. -/
def worker_run (fetch : String → Except Unit (List (String × Option String)))
    (queue : List String) : List Job :=
  queue.filterMap fun url =>
    match fetch url with
    | .ok fields => some ⟨url, fields⟩
    | .error _ => none

/-- Embeds `main` (bdjobs.py:134-237) from the point where the collected
links are known.  `snap` is the state of output.json, `current_urls` the
deduplicated discovered links (`set(job_links)`), `fetch` the enrichment
collaborator.  Returns the ordered list of file writes; the early return
at bdjobs.py:154-157 (`if not current_urls`) performs none.  The queue
iterates the set `new_urls` in unspecified order; we enumerate it
sorted. -/
def bdjobs_run (snap : SnapshotFile Job) (current_urls : Finset String)
    (fetch : String → Except Unit (List (String × Option String))) :
    List (FileId × List Job) :=
  let existing_jobs := load_existing_jobs snap
  let existing_urls := urlSet existing_jobs
  if current_urls = ∅ then []
  else
    let d := reconcile existing_urls current_urls
    let removed_jobs := phase2_removed (·.url) existing_jobs d.removed_ids
    let kept_jobs := phase2_kept (·.url) existing_jobs d.removed_ids
    let new_results := worker_run fetch (d.new_ids.sort (· ≤ ·))
    let final_results := kept_jobs ++ new_results
    [(FileId.output, final_results),
     (FileId.added, if new_results.isEmpty then [] else new_results),
     (FileId.removed, if removed_jobs.isEmpty then [] else removed_jobs)]

end Bdjobs

namespace Shomvob

open JobScraper

/-- `JOB_DETAIL_URL.format(job_id)` (shomvob.py:10, 232). -/
def JOB_DETAIL_URL (id : String) : String :=
  "https://app.shomvob.co/single-job-description/?id=" ++ id

/-- A raw item of the intercepted API list, with the fields `parse_api_job`
reads via `job.get(key, "")`; `none` stands for a missing key. -/
structure ApiJob where
  id : Option String
  company_name : Option String
  job_title : Option String
  job_locations_en : Option String
  location_en : Option String
  salary_range : Option String
  work_exp_en : Option String
  education_en : Option String
  employment_status_en : Option String
  application_deadline : Option String
  job_live_at : Option String
  main_category : Option String
  vacancy : Option String
  job_shift_en : Option String
  country_en : Option String
  job_responsibilities_en : Option String
  other_requirement_en : Option String
  job_description : Option String
deriving DecidableEq, Repr

/-- A shomvob record in "our standard format": the dict built by
`parse_api_job` (shomvob.py:249-268). -/
structure SJob where
  url : String
  job_id : String
  company_name : String
  job_title : String
  location : String
  salary : String
  experience : String
  education : String
  employment_type : String
  working_hours : String
  deadline : String
  date_posted : String
  industry : String
  vacancy : String
  shift : String
  country : String
  company_address : Option String
  job_description : String
deriving DecidableEq, Repr

/-- Embeds `parse_api_job` (shomvob.py:229-268).  `clean_html` stands for
the BeautifulSoup tag-stripping helper `clean_html` (shomvob.py:221-226).
A missing `id` yields `str("") = ""`. -/
def parse_api_job (clean_html : String → String) (job : ApiJob) : SJob :=
  let job_id := job.id.getD ""
  let url := JOB_DETAIL_URL job_id
  let responsibilities := clean_html (job.job_responsibilities_en.getD "")
  let other_req := clean_html (job.other_requirement_en.getD "")
  let description := clean_html (job.job_description.getD "")
  let parts :=
    (if responsibilities ≠ "" then ["Responsibilities: " ++ responsibilities] else []) ++
    (if other_req ≠ "" then ["Requirements: " ++ other_req] else []) ++
    (if description ≠ "" then [description] else [])
  let full_description := String.mk ((String.intercalate "\n\n" parts).toList.take 3000)
  { url := url
    job_id := job_id
    company_name := job.company_name.getD ""
    job_title := job.job_title.getD ""
    location := pyOr (job.job_locations_en.getD "") (job.location_en.getD "")
    salary := job.salary_range.getD ""
    experience := job.work_exp_en.getD ""
    education := job.education_en.getD ""
    employment_type := job.employment_status_en.getD ""
    working_hours := ""
    deadline := job.application_deadline.getD ""
    date_posted := job.job_live_at.getD ""
    industry := job.main_category.getD ""
    vacancy := job.vacancy.getD ""
    shift := job.job_shift_en.getD ""
    country := job.country_en.getD ""
    company_address := none
    job_description := full_description }

/-- The extras `enrich_worker` copies from the enrichment page's
`page_data` (shomvob.py:316-322). -/
structure PageData where
  company_address : Option String
  working_hours : Option String
  industry : Option String
deriving DecidableEq, Repr

/-- Embeds the merge step of `enrich_worker` (shomvob.py:315-322): page
fields overwrite only when truthy; `industry` only when the API value is
falsy. -/
def merge_page (job : SJob) (pd : PageData) : SJob :=
  let job :=
    if pyTruthy pd.company_address then { job with company_address := pd.company_address }
    else job
  let job :=
    if pyTruthy pd.working_hours then { job with working_hours := pd.working_hours.getD "" }
    else job
  if pyTruthy pd.industry && job.industry = "" then { job with industry := pd.industry.getD "" }
  else job

/-- Embeds `enrich_worker` (shomvob.py:306-331): drains the queue; on
success merges page extras; `.ok none` models a falsy `page_data`
(kept unmerged); on exception (`.error`) the API data is still appended
("Still keep the API data even if enrichment fails"). -/
def enrich_run (fetch : SJob → Except Unit (Option PageData))
    (queue : List SJob) : List SJob :=
  queue.map fun job_data =>
    match fetch job_data with
    | .ok (some page_data) => merge_page job_data page_data
    | .ok none => job_data
    | .error _ => job_data

/-- Embeds `main` (shomvob.py:334-444).  `api_jobs = none` models
`fetch_all_jobs_via_api` returning `None` (interception failed,
shomvob.py:352-355: print and return, no writes).  Returns the ordered
list of file writes. -/
def shomvob_run (snap : SnapshotFile SJob) (api_jobs : Option (List ApiJob))
    (clean_html : String → String)
    (fetch : SJob → Except Unit (Option PageData)) :
    List (FileId × List SJob) :=
  let existing_jobs := load_existing_jobs snap
  let existing_urls := (existing_jobs.map (·.url)).toFinset
  match api_jobs with
  | none => []
  | some raw =>
    let current_jobs := raw.map (parse_api_job clean_html)
    let current_urls := (current_jobs.map (·.url)).toFinset
    let d := reconcile existing_urls current_urls
    let new_jobs := current_jobs.filter (fun j => j.url ∈ d.new_ids)
    let removed_jobs := phase2_removed (·.url) existing_jobs d.removed_ids
    let kept_jobs := phase2_kept (·.url) existing_jobs d.removed_ids
    let enriched_results := enrich_run fetch new_jobs
    let final_results := kept_jobs ++ enriched_results
    [(FileId.output, final_results),
     (FileId.added, if enriched_results.isEmpty then [] else enriched_results),
     (FileId.removed, if removed_jobs.isEmpty then [] else removed_jobs)]

end Shomvob

namespace Careerjet

open JobScraper

/-- careerjet.py:49. -/
def KEYWORDS_PER_BATCH : Nat := 12

/-- careerjet.py:51. -/
def AI_EXTRA_KEYWORDS : Nat := 10

/-- careerjet.py:65-90. -/
def SEARCH_KEYWORDS : List String :=
  ["Accountant", "Senior Accountant", "Junior Accountant", "Finance Officer",
   "Finance Manager", "Financial Analyst", "Audit", "Internal Auditor",
   "Tax Accountant", "Accounts Payable", "Accounts Receivable", "Bookkeeper",
   "Cost Accountant", "Management Accountant", "Payroll", "Treasury", "CFO",
   "Chartered Accountant", "ACCA", "CPA", "Budget Analyst", "Compliance Officer",
   "Accounting", "Finance"]

/-- Embeds `get_keyword_batch` (careerjet.py:137-150; linkedin.py:221-235 is
the same function over linkedin's constants).  `math.ceil(total / batch_size)`
over positive integers is `(total + batch_size - 1) / batch_size`.
Returns `(batch, batch_idx, num_batches)`. -/
def get_keyword_batch (search_keywords : List String) (keywords_per_batch : Nat)
    (run_count : Nat) : List String × Nat × Nat :=
  let total := search_keywords.length
  let batch_size := min keywords_per_batch total
  let num_batches := (total + batch_size - 1) / batch_size
  let batch_idx := run_count % num_batches
  let start := batch_idx * batch_size
  let batch := (search_keywords.drop start).take batch_size
  let batch :=
    if batch.length < batch_size then
      batch ++ search_keywords.take (batch_size - batch.length)
    else batch
  (batch, batch_idx, num_batches)

/-- Embeds `ai_expand_keywords` (careerjet.py:199-246; linkedin.py:285-332
is the same filter): of the suggester's strings, keep those whose
stripped, lowercased form is in neither the static universe nor the used
list, stripped, capped at `AI_EXTRA_KEYWORDS`.  `suggestions` stands for
the parsed Groq reply (a list of strings; `_call_groq` fails closed to
`[]`). -/
def ai_expand_keywords (suggestions : List String) (used_keywords : List String) :
    List String :=
  let already_used := (SEARCH_KEYWORDS ++ used_keywords).map pyLower
  (((suggestions.map pyStrip).filter
      (fun kw => pyLower kw ∉ already_used))).take AI_EXTRA_KEYWORDS

/-- Embeds the used-terms bookkeeping of `main` (careerjet.py:518-523;
linkedin.py:1114-1118 is identical):
`used_ai_kws = set(state["used_ai_keywords"]); used_ai_kws.update(ai_keywords);`
`state["used_ai_keywords"] = list(used_ai_kws)[-100:]`, executed only when
`ai_keywords` is non-empty.  `set_order` models the enumeration order of
the unordered Python set (see `SetContract`); `[-100:]` is
`drop (length - 100)`. -/
def update_used_ai_keywords (set_order : List String → List String)
    (used_ai_keywords : List String) (ai_keywords : List String) : List String :=
  if ai_keywords.isEmpty then used_ai_keywords
  else
    let merged := set_order (used_ai_keywords ++ ai_keywords)
    merged.drop (merged.length - 100)

/-- A raw CareerJet API job with the fields `make_job_id` / `normalize_job`
read via `raw_job.get(key, default)`; `none` stands for a missing key. -/
structure CJRaw where
  url : Option String
  title : Option String
  company : Option String
  locations : Option String
  salary : Option String
  salary_min : Option String
  salary_max : Option String
  salary_currency_code : Option String
  salary_type : Option String
  date : Option String
  description : Option String
  site : Option String
deriving DecidableEq, Repr

/-- Embeds `make_job_id` (careerjet.py:307-315).  `md5hex` stands for
`lambda s: hashlib.md5(s.encode()).hexdigest()`; the numerical content of
MD5 is irrelevant to every property below, which hold for any hash.
When the url is falsy the id falls back to a hash of
`f"{title}-{company}-{locations}"`. -/
def make_job_id (md5hex : String → String) (job : CJRaw) : String :=
  let url := job.url.getD ""
  if url ≠ "" then (md5hex url).take 16
  else
    let raw := (job.title.getD "") ++ "-" ++ (job.company.getD "") ++ "-" ++
      (job.locations.getD "")
    (md5hex raw).take 16

/-- The normalized record built by `normalize_job` (careerjet.py:411-426). -/
structure CJRec where
  job_id : String
  url : String
  job_title : String
  company_name : String
  location : String
  salary : String
  date_posted : String
  job_description : String
  source : String
  site : String
  salary_min : Option String
  salary_max : Option String
  salary_currency_code : String
  salary_type : String
deriving DecidableEq, Repr

/-- `salary_type_map.get(code, "")` (careerjet.py:396-397). -/
def salary_type_map (code : String) : String :=
  if code = "Y" then "yearly"
  else if code = "M" then "monthly"
  else if code = "W" then "weekly"
  else if code = "D" then "daily"
  else if code = "H" then "hourly"
  else ""

/-- Embeds `normalize_job` (careerjet.py:383-426).  `salary_min`/`salary_max`
are kept in their string form. -/
def normalize_job (md5hex : String → String) (raw_job : CJRaw) : CJRec :=
  let job_id := make_job_id md5hex raw_job
  let salary_min := raw_job.salary_min
  let salary_max := raw_job.salary_max
  let salary_currency := raw_job.salary_currency_code.getD ""
  let salary_type := salary_type_map (raw_job.salary_type.getD "")
  let salary := raw_job.salary.getD ""
  let salary :=
    if salary = "" && (pyTruthy salary_min || pyTruthy salary_max) then
      let s :=
        if pyTruthy salary_min && pyTruthy salary_max then
          salary_currency ++ " " ++ salary_min.getD "" ++ " - " ++ salary_max.getD ""
        else if pyTruthy salary_min then
          salary_currency ++ " " ++ salary_min.getD "" ++ "+"
        else
          "Up to " ++ salary_currency ++ " " ++ salary_max.getD ""
      if salary_type ≠ "" then s ++ " (" ++ salary_type ++ ")" else s
    else salary
  { job_id := "careerjet-" ++ job_id
    url := raw_job.url.getD ""
    job_title := raw_job.title.getD ""
    company_name := raw_job.company.getD ""
    location := raw_job.locations.getD ""
    salary := if salary ≠ "" then salary.trim else ""
    date_posted := raw_job.date.getD ""
    job_description := raw_job.description.getD ""
    source := "careerjet"
    site := raw_job.site.getD ""
    salary_min := salary_min
    salary_max := salary_max
    salary_currency_code := salary_currency
    salary_type := salary_type }

/-- Embeds the aggregation of `_search_combo`/`fetch_all_jobs`
(careerjet.py:443-449, 459-483): each raw job is normalized and inserted
into the id-keyed dict `all_jobs` unless the id is already present;
insertion order is preserved (Python dicts are ordered). -/
def add_jobs (md5hex : String → String) (all_jobs : List (String × CJRec))
    (raws : List CJRaw) : List (String × CJRec) :=
  raws.foldl
    (fun acc raw =>
      let norm := normalize_job md5hex raw
      if (acc.map Prod.fst).contains norm.job_id then acc
      else acc ++ [(norm.job_id, norm)])
    all_jobs

/-- A value written by a careerjet run: a record list (snapshot/deltas) or
the rotation state (used AI keywords, next run count). -/
inductive CJWrite
  | jobs (l : List CJRec)
  | st (used_ai_keywords : List String) (run_count : Nat)
deriving DecidableEq, Repr

/-- Embeds `main` (careerjet.py:486-604) after the API-key check: load
state and snapshot, AI keyword expansion and used-terms bookkeeping,
discovery (`raws` stands for the aggregated API result pages), diff with
the safety guard (careerjet.py:543-556), merge, and the ordered writes
(output, added, removed, state).  `added_jobs`/`removed_jobs` iterate id
sets in unspecified order; we enumerate them in snapshot/discovery order. -/
def careerjet_run (md5hex : String → String)
    (set_order : List String → List String) (snap : SnapshotFile CJRec)
    (used_ai_keywords : List String) (run_count : Nat)
    (kw_suggestions : List String) (raws : List CJRaw) :
    List (FileId × CJWrite) :=
  let existing_jobs := load_existing_jobs snap
  let existing_ids :=
    ((existing_jobs.filter (fun j => j.job_id ≠ "")).map (·.job_id)).toFinset
  let ai_keywords := ai_expand_keywords kw_suggestions used_ai_keywords
  let used' := update_used_ai_keywords set_order used_ai_keywords ai_keywords
  let current := add_jobs md5hex [] raws
  let current_ids := (current.map Prod.fst).toFinset
  let added_ids := current_ids \ existing_ids
  let removed_ids0 := existing_ids \ current_ids
  let added_jobs := (current.filter (fun p => p.1 ∈ added_ids)).map Prod.snd
  let removed_jobs0 := existing_jobs.filter (fun j => j.job_id ∈ removed_ids0)
  let guard := safety_guard existing_ids current_ids
  let removed_ids := if guard then (∅ : Finset String) else removed_ids0
  let removed_jobs := if guard then [] else removed_jobs0
  let final_jobs := (existing_jobs.filter (fun j => j.job_id ∉ removed_ids)) ++ added_jobs
  [(FileId.output, CJWrite.jobs final_jobs),
   (FileId.added, CJWrite.jobs added_jobs),
   (FileId.removed, CJWrite.jobs removed_jobs),
   (FileId.state, CJWrite.st used' (run_count + 1))]

end Careerjet

namespace Linkedin

open JobScraper

/-- `re.search(lit ++ "(\d+)", s)`: first position where the literal `pat`
occurs immediately followed by at least one digit; returns the maximal
digit run after it (greedy `\d+`).  Later occurrences are tried when an
occurrence is not followed by a digit, as `re.search` does. -/
def searchLitDigits (pat : List Char) : List Char → Option (List Char)
  | [] => none
  | c :: t =>
    if pat.isPrefixOf (c :: t) then
      let ds := ((c :: t).drop pat.length).takeWhile (·.isDigit)
      if ds.isEmpty then searchLitDigits pat t else some ds
    else searchLitDigits pat t

/-- `re.search(r"-(\d{8,})", s)`: first `'-'` followed by a digit run of
length at least 8; returns that (greedy) run. -/
def searchDashDigits8 : List Char → Option (List Char)
  | [] => none
  | c :: t =>
    if c = '-' then
      let ds := t.takeWhile (·.isDigit)
      if 8 ≤ ds.length then some ds else searchDashDigits8 t
    else searchDashDigits8 t

/-- Embeds `extract_job_id` (linkedin.py:384-405): `None` on a falsy url,
else the first match of `/jobs/view/(\d+)`, then `currentJobId=(\d+)`,
then `-(\d{8,})`, else `None`. -/
def extract_job_id (url : String) : Option String :=
  if url = "" then none
  else
    match searchLitDigits "/jobs/view/".toList url.toList with
    | some ds => some (String.mk ds)
    | none =>
      match searchLitDigits "currentJobId=".toList url.toList with
      | some ds => some (String.mk ds)
      | none =>
        match searchDashDigits8 url.toList with
        | some ds => some (String.mk ds)
        | none => none

/-- Embeds `clean_url` (linkedin.py:407-412). -/
def clean_url (url : String) : String :=
  match extract_job_id url with
  | some jid => "https://www.linkedin.com/jobs/view/" ++ jid ++ "/"
  | none => url

/-- Embeds `clean_text` (linkedin.py:415-419):
`re.sub(r'\s+', ' ', text).strip()` — collapse whitespace runs and trim. -/
def clean_text (text : String) : String :=
  String.intercalate " " ((text.split (·.isWhitespace)).filter (· ≠ ""))

/-- One job card of the search-results page, with the raw values the card
loop reads (linkedin.py:611-656): the link's href (`none`: no link element
or missing attribute) and the inner texts (`""`: element missing).
`location` is `none` when the location element is missing, in which case
the search location is used. -/
structure Card where
  job_url : Option String
  title : String
  company : String
  location : Option String
deriving DecidableEq, Repr

/-- A discovered job entry as appended by the card loop
(linkedin.py:644-651). -/
structure LJobCard where
  job_id : String
  url : String
  title : String
  company : String
  location : String
  source : String
deriving DecidableEq, Repr

/-- Embeds the card loop of `scrape_linkedin_search_direct`
(linkedin.py:611-656): skip cards without link/href, without a derivable
job id (linkedin.py:622-624: `if not job_id or job_id in seen_ids:
continue`), already-seen ids, and falsy titles; otherwise append the
entry, record the id in `seen_ids`, and stop at `max_jobs`. -/
def collect_cards (search_location : String) (max_jobs : Nat) :
    List Card → List String → List LJobCard → List LJobCard
  | [], _seen, jobs => jobs
  | card :: rest, seen, jobs =>
    match card.job_url with
    | none => collect_cards search_location max_jobs rest seen jobs
    | some job_url =>
      if job_url = "" then collect_cards search_location max_jobs rest seen jobs
      else
        match extract_job_id job_url with
        | none => collect_cards search_location max_jobs rest seen jobs
        | some job_id =>
          if job_id ∈ seen then collect_cards search_location max_jobs rest seen jobs
          else
            let title := clean_text card.title
            let company := clean_text card.company
            let job_location := clean_text (card.location.getD search_location)
            if title ≠ "" then
              let jobs' := jobs ++
                [{ job_id := job_id
                   url := clean_url job_url
                   title := title
                   company := if company = "" then "Unknown Company" else company
                   location := job_location
                   source := "linkedin_search" }]
              if max_jobs ≤ jobs'.length then jobs'
              else collect_cards search_location max_jobs rest (seen ++ [job_id]) jobs'
            else collect_cards search_location max_jobs rest seen jobs

/-- A snapshot record as read by the availability phases: `job_id` may be
missing (`j.get('job_id')` is `None`), `url` defaults to `""`. -/
structure LSnapJob where
  job_id : Option String
  url : String
  attrs : List (String × Option String)
deriving DecidableEq, Repr

/-- Outcome of fetching a job page in `check_job_availability`: the page
content (with the verdict of the external `is_job_unavailable` detector),
or a raised exception. -/
inductive FetchOutcome
  | page (unavailable : Bool)
  | raised
deriving DecidableEq, Repr

/-- Embeds `check_job_availability` (linkedin.py:1013-1031): `False`
(unavailable) on a falsy url; on a fetched page, available iff the
detector says the job is not unavailable; on an exception, `True`
(treated as still available). -/
def check_job_availability (env : String → FetchOutcome) (job : LSnapJob) : Bool :=
  let url := job.url
  if url = "" then false
  else
    match env url with
    | .page unavailable => !unavailable
    | .raised => true

/-- Embeds `availability_worker` draining the queue (linkedin.py:1034-1057):
the set `unavailable_ids` collects `job_info.get('job_id')` (possibly
`None`) of each item whose check returned `False`. -/
def availability_run (env : String → FetchOutcome) (queue : List LSnapJob) :
    Finset (Option String) :=
  (queue.filterMap
    (fun j => if check_job_availability env j then none else some j.job_id)).toFinset

/-- Embeds Phase 2 of `main` (linkedin.py:1243-1280): among the snapshot
records whose id was not rediscovered (`removed_ids`), check availability
per url; returns `(records appended to removed_jobs, new existing_jobs)`. -/
def linkedin_phase2 (env : String → FetchOutcome) (existing_jobs : List LSnapJob)
    (removed_ids : Finset String) : List LSnapJob × List LSnapJob :=
  if removed_ids = ∅ then ([], existing_jobs)
  else
    let removed_candidates := existing_jobs.filter
      (fun j => match j.job_id with
        | some id => id ∈ removed_ids
        | none => false)
    if removed_candidates.isEmpty then ([], existing_jobs)
    else
      let unavailable_ids := availability_run env removed_candidates
      (existing_jobs.filter (fun j => j.job_id ∈ unavailable_ids),
       existing_jobs.filter (fun j => j.job_id ∉ unavailable_ids))

end Linkedin

namespace Samples

open JobScraper

/-- A concrete admissible enumeration of a Python set for counterexamples:
reversed first-occurrence order (sets are unordered, so any duplicate-free
enumeration satisfies `SetContract`). -/
def revOrder (l : List String) : List String :=
  l.reverse.dedup

/-- One hundred distinct used-up expansion terms, `"0" … "99"`. -/
def used100 : List String :=
  (List.range 100).map (fun i => toString i)

/-- A shomvob API item that carries no `id` field. -/
def rawNoId : Shomvob.ApiJob :=
  { id := none, company_name := some "ACME", job_title := some "Clerk"
    job_locations_en := none, location_en := none, salary_range := none
    work_exp_en := none, education_en := none, employment_status_en := none
    application_deadline := none, job_live_at := none, main_category := none
    vacancy := none, job_shift_en := none, country_en := none
    job_responsibilities_en := none, other_requirement_en := none
    job_description := none }

/-- A shomvob API item with id `"1"`. -/
def rawWithId : Shomvob.ApiJob :=
  { rawNoId with id := some "1" }

/-- An already-persisted shomvob record (the parse of an item with id
`"7"`). -/
def persistedSJob : Shomvob.SJob :=
  Shomvob.parse_api_job id { rawNoId with id := some "7" }

/-- A careerjet raw job with no url but a title, company and location. -/
def cjNoUrl : Careerjet.CJRaw :=
  { url := some "", title := some "T", company := some "C", locations := some "L"
    salary := none, salary_min := none, salary_max := none
    salary_currency_code := none, salary_type := none, date := none
    description := none, site := none }

/-- A LinkedIn search-result card with a canonical job url. -/
def cardA : Linkedin.Card :=
  { job_url := some "https://www.linkedin.com/jobs/view/12345", title := "Analyst"
    company := "", location := none }

/-- A persisted LinkedIn snapshot record with id `"1"`. -/
def lsnapA : Linkedin.LSnapJob :=
  { job_id := some "1", url := "https://www.linkedin.com/jobs/view/1/", attrs := [] }

/-- Three existing bdjobs records with distinct urls. -/
def bd3 : List Bdjobs.Job :=
  [{ url := "a", fields := [] }, { url := "b", fields := [] },
   { url := "c", fields := [] }]

/-- A persisted careerjet record with the given id. -/
def cjRec (jid : String) : Careerjet.CJRec :=
  { job_id := jid, url := "", job_title := "", company_name := "", location := ""
    salary := "", date_posted := "", job_description := "", source := "careerjet"
    site := "", salary_min := none, salary_max := none, salary_currency_code := ""
    salary_type := "" }

/-- Three existing careerjet records with distinct non-empty ids. -/
def cj3 : List Careerjet.CJRec :=
  [cjRec "careerjet-1", cjRec "careerjet-2", cjRec "careerjet-3"]

end Samples

section Theorems

open JobScraper

/-- If the snapshot identity set is non-empty and the discovered count is
below half its size, the safety guard fires. -/
theorem safety_guard_true_of_lt {existing current : Finset String}
    (hne : existing.Nonempty)
    (hlt : (current.card : ℚ) < (existing.card : ℚ) * 0.5) :
    safety_guard existing current = true := by
  simp [safety_guard, hne, hlt]

/-- C1: in every run (bdjobs and careerjet alike) with a non-empty
snapshot in which the number of distinct discovered identities is
strictly below half the number of snapshot records, the guard forces
`toRemove = ∅`, the removed-delta file is written empty, and every
existing record survives into the written snapshot (bdjobs.py:159-237
with the guard at 167-170; careerjet.py:543-578 with the guard at
552-556). -/
theorem C1_safety_guard_forces_no_removals :
    (∀ (existing_jobs : List Bdjobs.Job) (current_urls : Finset String)
       (fetch : String → Except Unit (List (String × Option String))),
       (existing_jobs.map (·.url)).Nodup →
       existing_jobs ≠ [] →
       current_urls ≠ ∅ →
       ((current_urls.card : ℚ) < (existing_jobs.length : ℚ) * 0.5) →
       (reconcile (Bdjobs.urlSet existing_jobs) current_urls).removed_ids = ∅ ∧
       (Bdjobs.bdjobs_run (.valid existing_jobs) current_urls fetch).lookup
          FileId.removed = some [] ∧
       ∀ j ∈ existing_jobs, ∃ out,
         (Bdjobs.bdjobs_run (.valid existing_jobs) current_urls fetch).lookup
            FileId.output = some out ∧ j ∈ out) ∧
    (∀ (md5hex : String → String) (set_order : List String → List String)
       (existing_jobs : List Careerjet.CJRec) (used : List String) (rc : Nat)
       (sugg : List String) (raws : List Careerjet.CJRaw),
       (∀ j ∈ existing_jobs, j.job_id ≠ "") →
       (existing_jobs.map (·.job_id)).Nodup →
       existing_jobs ≠ [] →
       ((((Careerjet.add_jobs md5hex [] raws).map Prod.fst).toFinset.card : ℚ)
          < (existing_jobs.length : ℚ) * 0.5) →
       safety_guard
           (((existing_jobs.filter (fun j => j.job_id ≠ "")).map (·.job_id)).toFinset)
           (((Careerjet.add_jobs md5hex [] raws).map Prod.fst).toFinset) = true ∧
       (Careerjet.careerjet_run md5hex set_order (.valid existing_jobs) used rc
           sugg raws).lookup FileId.removed = some (.jobs []) ∧
       ∀ j ∈ existing_jobs, ∃ out,
         (Careerjet.careerjet_run md5hex set_order (.valid existing_jobs) used rc
             sugg raws).lookup FileId.output = some (.jobs out) ∧ j ∈ out) := by
  constructor
  · intro existing_jobs current_urls fetch hnodup hne hcur hlt
    have hcard : (Bdjobs.urlSet existing_jobs).card = existing_jobs.length := by
      rw [Bdjobs.urlSet, List.toFinset_card_of_nodup hnodup, List.length_map]
    have hne' : (Bdjobs.urlSet existing_jobs).Nonempty := by
      rw [← Finset.card_pos, hcard]
      exact List.length_pos.mpr hne
    have hguard : safety_guard (Bdjobs.urlSet existing_jobs) current_urls = true := by
      refine safety_guard_true_of_lt hne' ?_
      rwa [hcard]
    have hrem : (reconcile (Bdjobs.urlSet existing_jobs) current_urls).removed_ids
        = ∅ := by
      simp [reconcile, hguard]
    refine ⟨hrem, ?_, ?_⟩
    · simp only [Bdjobs.bdjobs_run, load_existing_jobs, if_neg hcur, hrem,
        phase2_removed, Finset.not_nonempty_empty, if_false]
      rfl
    · intro j hj
      refine ⟨(phase2_kept (·.url) existing_jobs
          (reconcile (Bdjobs.urlSet existing_jobs) current_urls).removed_ids) ++
          Bdjobs.worker_run fetch
            ((reconcile (Bdjobs.urlSet existing_jobs) current_urls).new_ids.sort
              (· ≤ ·)),
        ?_, ?_⟩
      · simp only [Bdjobs.bdjobs_run, load_existing_jobs, if_neg hcur]
        rfl
      · refine List.mem_append_left _ ?_
        simp [phase2_kept, hrem, Finset.not_nonempty_empty, hj]
  · intro md5hex set_order existing_jobs used rc sugg raws hall hnodup hne hlt
    have hfilter : existing_jobs.filter (fun j => j.job_id ≠ "") = existing_jobs := by
      rw [List.filter_eq_self]
      intro a ha
      simpa using hall a ha
    have hcard : (((existing_jobs.filter (fun j => j.job_id ≠ "")).map
        (·.job_id)).toFinset).card = existing_jobs.length := by
      rw [hfilter, List.toFinset_card_of_nodup hnodup, List.length_map]
    have hne' : (((existing_jobs.filter (fun j => j.job_id ≠ "")).map
        (·.job_id)).toFinset).Nonempty := by
      rw [← Finset.card_pos, hcard]
      exact List.length_pos.mpr hne
    have hguard : safety_guard
        (((existing_jobs.filter (fun j => j.job_id ≠ "")).map (·.job_id)).toFinset)
        (((Careerjet.add_jobs md5hex [] raws).map Prod.fst).toFinset) = true := by
      refine safety_guard_true_of_lt hne' ?_
      rwa [hcard]
    refine ⟨hguard, ?_, ?_⟩
    · simp only [Careerjet.careerjet_run, load_existing_jobs, hguard, if_true]
      rfl
    · intro j hj
      simp only [Careerjet.careerjet_run, load_existing_jobs, hguard, if_true]
      refine ⟨_, rfl, ?_⟩
      refine List.mem_append_left _ ?_
      refine List.mem_filter.mpr ⟨hj, ?_⟩
      simp

/-- Witness for C1 at concrete inputs: three snapshot records and one
discovered identity, in each of the two pipelines. -/
theorem C1_witness :
    ((Samples.bd3.map (·.url)).Nodup ∧ Samples.bd3 ≠ [] ∧
     ({"x"} : Finset String) ≠ ∅ ∧
     ((({"x"} : Finset String).card : ℚ) < (Samples.bd3.length : ℚ) * 0.5) ∧
     ((reconcile (Bdjobs.urlSet Samples.bd3) {"x"}).removed_ids = ∅ ∧
      (Bdjobs.bdjobs_run (.valid Samples.bd3) {"x"} (fun _ => .error ())).lookup
         FileId.removed = some [] ∧
      ∀ j ∈ Samples.bd3, ∃ out,
        (Bdjobs.bdjobs_run (.valid Samples.bd3) {"x"} (fun _ => .error ())).lookup
           FileId.output = some out ∧ j ∈ out)) ∧
    ((∀ j ∈ Samples.cj3, j.job_id ≠ "") ∧
     (Samples.cj3.map (·.job_id)).Nodup ∧ Samples.cj3 ≠ [] ∧
     ((((Careerjet.add_jobs id [] [Samples.cjNoUrl]).map Prod.fst).toFinset.card : ℚ)
        < (Samples.cj3.length : ℚ) * 0.5) ∧
     ((Careerjet.careerjet_run id id (.valid Samples.cj3) [] 0 []
          [Samples.cjNoUrl]).lookup FileId.removed = some (.jobs []) ∧
      ∀ j ∈ Samples.cj3, ∃ out,
        (Careerjet.careerjet_run id id (.valid Samples.cj3) [] 0 []
            [Samples.cjNoUrl]).lookup FileId.output = some (.jobs out) ∧ j ∈ out)) := by
  have hltb : ((({"x"} : Finset String).card : ℚ) < (Samples.bd3.length : ℚ) * 0.5) := by
    norm_num [Samples.bd3]
  have hltc : ((((Careerjet.add_jobs id [] [Samples.cjNoUrl]).map
      Prod.fst).toFinset.card : ℚ) < (Samples.cj3.length : ℚ) * 0.5) := by
    rw [show ((Careerjet.add_jobs id [] [Samples.cjNoUrl]).map
        Prod.fst).toFinset.card = 1 from rfl]
    norm_num [Samples.cj3]
  refine ⟨⟨by decide, by decide, by decide, hltb,
     C1_safety_guard_forces_no_removals.1 Samples.bd3 {"x"} (fun _ => .error ())
       (by decide) (by decide) (by decide) hltb⟩,
    ⟨by decide, by decide, by decide, hltc,
     (C1_safety_guard_forces_no_removals.2 id id Samples.cj3 [] 0 []
       [Samples.cjNoUrl] (by decide) (by decide) (by decide) hltc).2⟩⟩

/-- C2 (counterexample): with snapshot identities `{a,b,c}` and the single
discovered identity `{a}`, the safety guard fires, so the post-guard sets
union to `{a}` while `discovered ∪ existing = {a,b,c}` — the claimed
partition equality fails. -/
theorem C2_counterexample :
    (reconcile {"a", "b", "c"} {"a"}).new_ids ∪
        (reconcile {"a", "b", "c"} {"a"}).removed_ids ∪
        (reconcile {"a", "b", "c"} {"a"}).unchanged = {"a"} ∧
    ({"a"} : Finset String) ∪ {"a", "b", "c"} = {"a", "b", "c"} ∧
    decide (({"a"} : Finset String) = {"a", "b", "c"}) = false := by
  have hg : safety_guard {"a", "b", "c"} {"a"} = true := by
    refine safety_guard_true_of_lt ⟨"a", by simp⟩ ?_
    rw [show ({"a"} : Finset String).card = 1 from rfl,
      show ({"a", "b", "c"} : Finset String).card = 3 from rfl]
    norm_num
  refine ⟨?_, by decide, by decide⟩
  simp only [reconcile, hg, if_true]
  decide

/-- C2 (amended): the three sets are always pairwise disjoint; their union
equals `discovered ∪ existing` exactly in the runs where the safety guard
does not fire, and equals `discovered` alone when it fires. -/
theorem C2_amended_partition (discovered existing : Finset String) :
    (Disjoint (reconcile existing discovered).new_ids
        (reconcile existing discovered).removed_ids ∧
      Disjoint (reconcile existing discovered).new_ids
        (reconcile existing discovered).unchanged ∧
      Disjoint (reconcile existing discovered).removed_ids
        (reconcile existing discovered).unchanged) ∧
    (safety_guard existing discovered = false →
      (reconcile existing discovered).new_ids ∪
          (reconcile existing discovered).removed_ids ∪
          (reconcile existing discovered).unchanged = discovered ∪ existing) ∧
    (safety_guard existing discovered = true →
      (reconcile existing discovered).new_ids ∪
          (reconcile existing discovered).removed_ids ∪
          (reconcile existing discovered).unchanged = discovered) := by
  cases hg : safety_guard existing discovered
  · simp only [reconcile, hg, Bool.false_eq_true, if_false]
    refine ⟨⟨?_, ?_, ?_⟩, ?_, ?_⟩
    · rw [Finset.disjoint_left]
      intro a ha hb
      simp only [Finset.mem_sdiff] at ha hb
      tauto
    · rw [Finset.disjoint_left]
      intro a ha hb
      simp only [Finset.mem_sdiff, Finset.mem_inter] at ha hb
      tauto
    · rw [Finset.disjoint_left]
      intro a ha hb
      simp only [Finset.mem_sdiff, Finset.mem_inter] at ha hb
      tauto
    · intro _
      ext a
      simp only [Finset.mem_union, Finset.mem_sdiff, Finset.mem_inter]
      tauto
    · intro h
      exact absurd h (by simp)
  · simp only [reconcile, hg, if_true]
    refine ⟨⟨?_, ?_, ?_⟩, ?_, ?_⟩
    · exact Finset.disjoint_empty_right _
    · rw [Finset.disjoint_left]
      intro a ha hb
      simp only [Finset.mem_sdiff, Finset.mem_inter] at ha hb
      tauto
    · exact Finset.disjoint_empty_left _
    · intro h
      exact absurd h (by simp)
    · intro _
      ext a
      simp only [Finset.mem_union, Finset.mem_sdiff, Finset.mem_inter,
        Finset.not_mem_empty]
      tauto

/-- Witness for C2 (amended) at concrete sets where the guard does not
fire. -/
theorem C2_amended_witness :
    safety_guard {"e"} {"d"} = false ∧
    (reconcile {"e"} {"d"}).new_ids ∪ (reconcile {"e"} {"d"}).removed_ids ∪
        (reconcile {"e"} {"d"}).unchanged = {"d"} ∪ {"e"} := by
  have hlt : ¬ ((({"d"} : Finset String).card : ℚ) <
      (({"e"} : Finset String).card : ℚ) * 0.5) := by
    rw [show ({"d"} : Finset String).card = 1 from rfl,
      show ({"e"} : Finset String).card = 1 from rfl]
    norm_num
  have hg : safety_guard {"e"} {"d"} = false := by
    simp [safety_guard, hlt]
    norm_num
  exact ⟨hg, (C2_amended_partition {"d"} {"e"}).2.1 hg⟩

/-- C3 (counterexample): on a concrete completed bdjobs run the write
sequence is snapshot, added delta, removed delta — the added delta is not
written before the snapshot, contrary to the claim. -/
theorem C3_counterexample :
    (Bdjobs.bdjobs_run (.valid []) {"u"} (fun _ => .error ())).map Prod.fst
        = [FileId.output, FileId.added, FileId.removed] ∧
    decide
      (((Bdjobs.bdjobs_run (.valid []) {"u"} (fun _ => .error ())).map Prod.fst).indexOf
          FileId.added <
        ((Bdjobs.bdjobs_run (.valid []) {"u"} (fun _ => .error ())).map Prod.fst).indexOf
          FileId.output) = false := by
  refine ⟨by decide, by decide⟩

/-- C3 (amended): every completed run writes the full snapshot first, then
the added delta, then the removed delta (bdjobs.py:214-234,
shomvob.py:420-439, careerjet.py:566-590 — careerjet additionally writes
the rotation state last). -/
theorem C3_amended_write_order :
    (∀ (snap : SnapshotFile Bdjobs.Job) (cur : Finset String)
       (fetch : String → Except Unit (List (String × Option String))), cur ≠ ∅ →
         (Bdjobs.bdjobs_run snap cur fetch).map Prod.fst
           = [FileId.output, FileId.added, FileId.removed]) ∧
    (∀ (snap : SnapshotFile Shomvob.SJob) (raw : List Shomvob.ApiJob)
       (clean : String → String)
       (fetch : Shomvob.SJob → Except Unit (Option Shomvob.PageData)),
         (Shomvob.shomvob_run snap (some raw) clean fetch).map Prod.fst
           = [FileId.output, FileId.added, FileId.removed]) ∧
    (∀ (md5hex : String → String) (set_order : List String → List String)
       (snap : SnapshotFile Careerjet.CJRec) (used : List String) (rc : Nat)
       (sugg : List String) (raws : List Careerjet.CJRaw),
         (Careerjet.careerjet_run md5hex set_order snap used rc sugg raws).map Prod.fst
           = [FileId.output, FileId.added, FileId.removed, FileId.state]) := by
  refine ⟨?_, ?_, ?_⟩
  · intro snap cur fetch hcur
    simp only [Bdjobs.bdjobs_run, if_neg hcur]
    rfl
  · intro snap raw clean fetch
    simp only [Shomvob.shomvob_run]
    rfl
  · intro md5hex set_order snap used rc sugg raws
    rfl

/-- Witness for C3 (amended) at concrete runs of the three scrapers. -/
theorem C3_amended_write_order_witness :
    (Bdjobs.bdjobs_run (.valid []) {"u"} (fun _ => .error ())).map Prod.fst
        = [FileId.output, FileId.added, FileId.removed] ∧
    (Shomvob.shomvob_run (.valid []) (some []) id (fun _ => .error ())).map Prod.fst
        = [FileId.output, FileId.added, FileId.removed] ∧
    (Careerjet.careerjet_run id id (.valid []) [] 0 [] []).map Prod.fst
        = [FileId.output, FileId.added, FileId.removed, FileId.state] :=
  ⟨C3_amended_write_order.1 (.valid []) {"u"} (fun _ => .error ()) (by decide),
   C3_amended_write_order.2.1 (.valid []) [] id (fun _ => .error ()),
   C3_amended_write_order.2.2 id id (.valid []) [] 0 [] []⟩

/-- Every record produced by the bdjobs worker pool comes from a
successful fetch of its own url. -/
theorem worker_run_mem {fetch : String → Except Unit (List (String × Option String))}
    {urls : List String} {j : Bdjobs.Job} (hj : j ∈ Bdjobs.worker_run fetch urls) :
    fetch j.url = .ok j.fields := by
  simp only [Bdjobs.worker_run, List.mem_filterMap] at hj
  obtain ⟨a, _, heq⟩ := hj
  cases hfa : fetch a with
  | ok f =>
    rw [hfa] at heq
    cases heq
    exact hfa
  | error e =>
    rw [hfa] at heq
    exact Option.noConfusion heq

/-- Records kept by phase 2 come from the existing snapshot. -/
theorem phase2_kept_mem {α : Type} {key : α → String} {jobs : List α}
    {ids : Finset String} {j : α} (hj : j ∈ phase2_kept key jobs ids) : j ∈ jobs := by
  unfold phase2_kept at hj
  split at hj
  · exact List.mem_of_mem_filter hj
  · exact hj

set_option maxRecDepth 4000 in
/-- C4 (counterexample): in shomvob, a newly discovered item whose
enrichment fetch raises is still appended with its API data: it appears
in both the added-delta file and the new snapshot. -/
theorem C4_counterexample :
    (Shomvob.shomvob_run (.valid []) (some [Samples.rawWithId]) id
        (fun _ => .error ())).lookup FileId.added
      = some [Shomvob.parse_api_job id Samples.rawWithId] ∧
    (Shomvob.shomvob_run (.valid []) (some [Samples.rawWithId]) id
        (fun _ => .error ())).lookup FileId.output
      = some [Shomvob.parse_api_job id Samples.rawWithId] := by
  refine ⟨by decide, by decide⟩

/-- C4 (amended): in bdjobs a newly discovered item whose enrichment
raises is dropped from the worker results and hence from the written
snapshot (bdjobs.py:118-131), so it remains a discovery candidate next
run; in shomvob the item is appended with its discovery-phase API data
despite the failure (shomvob.py:325-328). -/
theorem C4_enrichment_failure
    :
    (∀ (fetch : String → Except Unit (List (String × Option String)))
       (urls : List String) (u : String), fetch u = .error () →
         ∀ j ∈ Bdjobs.worker_run fetch urls, j.url ≠ u) ∧
    (∀ (snap : SnapshotFile Bdjobs.Job) (cur : Finset String)
       (fetch : String → Except Unit (List (String × Option String))) (u : String),
       fetch u = .error () → u ∉ Bdjobs.urlSet (load_existing_jobs snap) →
         ∀ out, (Bdjobs.bdjobs_run snap cur fetch).lookup FileId.output = some out →
           ∀ j ∈ out, j.url ≠ u) ∧
    (∀ (fetch : Shomvob.SJob → Except Unit (Option Shomvob.PageData))
       (jobs : List Shomvob.SJob) (j : Shomvob.SJob), j ∈ jobs →
         fetch j = .error () → j ∈ Shomvob.enrich_run fetch jobs) := by
  refine ⟨?_, ?_, ?_⟩
  · intro fetch urls u herr j hj hju
    have hok := worker_run_mem hj
    rw [hju, herr] at hok
    exact Except.noConfusion hok
  · intro snap cur fetch u herr hnot out hout j hjout hju
    by_cases hc : cur = ∅
    · simp only [Bdjobs.bdjobs_run, if_pos hc, List.lookup_nil] at hout
      exact Option.noConfusion hout
    · simp only [Bdjobs.bdjobs_run, if_neg hc, List.lookup] at hout
      rw [show (FileId.output == FileId.output) = true from rfl] at hout
      have hout' := Option.some.inj hout
      rw [← hout'] at hjout
      rcases List.mem_append.mp hjout with hk | hw
      · have hjex := phase2_kept_mem hk
        refine hnot ?_
        rw [← hju]
        simp only [Bdjobs.urlSet, List.mem_toFinset, List.mem_map]
        exact ⟨j, hjex, rfl⟩
      · have hok := worker_run_mem hw
        rw [hju, herr] at hok
        exact Except.noConfusion hok
  · intro fetch jobs j hj herr
    simp only [Shomvob.enrich_run]
    refine List.mem_map.mpr ⟨j, hj, ?_⟩
    rw [herr]

/-- Witness for C4 (amended) at concrete inputs: an erroring fetch over a
one-url queue, the corresponding full run, and a one-job shomvob
enrichment queue. -/
theorem C4_enrichment_failure_witness :
    (∀ j ∈ Bdjobs.worker_run
        (fun _ => (.error () : Except Unit (List (String × Option String)))) ["u"],
       j.url ≠ "u") ∧
    (∀ out, (Bdjobs.bdjobs_run (.valid []) {"u"}
          (fun _ => (.error () : Except Unit (List (String × Option String))))).lookup
        FileId.output = some out → ∀ j ∈ out, j.url ≠ "u") ∧
    Shomvob.parse_api_job id Samples.rawWithId ∈
      Shomvob.enrich_run (fun _ => .error ())
        [Shomvob.parse_api_job id Samples.rawWithId] :=
  ⟨C4_enrichment_failure.1 _ ["u"] "u" rfl,
   C4_enrichment_failure.2.1 (.valid []) {"u"} _ "u" rfl (by decide),
   C4_enrichment_failure.2.2 _ [Shomvob.parse_api_job id Samples.rawWithId] _
     (by simp) rfl⟩

/-- Every entry the LinkedIn card loop collects either was already in the
accumulator or carries a job id extracted from its card's url. -/
theorem collect_cards_provenance {loc : String} {maxj : Nat} :
    ∀ (cards : List Linkedin.Card) (seen : List String)
      (jobs : List Linkedin.LJobCard),
      ∀ j ∈ Linkedin.collect_cards loc maxj cards seen jobs,
        j ∈ jobs ∨ ∃ u, Linkedin.extract_job_id u = some j.job_id ∧
          j.url = Linkedin.clean_url u := by
  intro cards
  induction cards with
  | nil =>
    intro seen jobs j hj
    exact .inl hj
  | cons card rest ih =>
    intro seen jobs j hj
    cases hcu : card.job_url with
    | none =>
      simp only [Linkedin.collect_cards, hcu] at hj
      exact ih _ _ _ hj
    | some u =>
      simp only [Linkedin.collect_cards, hcu] at hj
      by_cases hu0 : u = ""
      · rw [if_pos hu0] at hj
        exact ih _ _ _ hj
      · rw [if_neg hu0] at hj
        cases hex : Linkedin.extract_job_id u with
        | none =>
          simp only [hex] at hj
          exact ih _ _ _ hj
        | some jid =>
          simp only [hex] at hj
          by_cases hseen : jid ∈ seen
          · rw [if_pos hseen] at hj
            exact ih _ _ _ hj
          · rw [if_neg hseen] at hj
            by_cases ht : Linkedin.clean_text card.title = ""
            · rw [if_neg (fun hne => hne ht)] at hj
              exact ih _ _ _ hj
            · rw [if_pos ht] at hj
              split at hj <;> split at hj
              all_goals
                first
                | (rcases List.mem_append.mp hj with h | h
                   · exact .inl h
                   · have hje := List.mem_singleton.mp h
                     subst hje
                     exact .inr ⟨u, hex, rfl⟩)
                | (rcases ih _ _ _ hj with h | h
                   · rcases List.mem_append.mp h with h1 | h1
                     · exact .inl h1
                     · have hje := List.mem_singleton.mp h1
                       subst hje
                       exact .inr ⟨u, hex, rfl⟩
                   · exact .inr h)

set_option maxRecDepth 4000 in
/-- C5 (counterexample): a shomvob API item with no `id` field is not
dropped — it survives into the written snapshot with the fabricated
empty-string identity — and careerjet's `make_job_id` on a url-less job
returns a non-null key fabricated from title-company-locations. -/
theorem C5_counterexample :
    (Shomvob.shomvob_run (.valid []) (some [Samples.rawNoId]) id
        (fun _ => .ok none)).lookup FileId.output
      = some [Shomvob.parse_api_job id Samples.rawNoId] ∧
    (Shomvob.parse_api_job id Samples.rawNoId).job_id = "" ∧
    Careerjet.make_job_id id Samples.cjNoUrl = "T-C-L" := by
  refine ⟨by decide, by decide, by decide⟩

/-- C5 (amended): identity handling differs per scraper.  LinkedIn drops
cards with no derivable id: every collected entry's id is extracted from
its card url (linkedin.py:622-624).  CareerJet's `make_job_id` never
returns null: with a falsy url it falls back to a hash of
`title-company-locations` (careerjet.py:313-315).  Shomvob keeps items
whose API object lacks an id, under the empty-string identity
(shomvob.py:231); no raw item is dropped by `parse_api_job`. -/
theorem C5_identity_handling :
    (∀ (loc : String) (maxj : Nat) (cards : List Linkedin.Card),
       ∀ j ∈ Linkedin.collect_cards loc maxj cards [] [],
         ∃ u, Linkedin.extract_job_id u = some j.job_id ∧
           j.url = Linkedin.clean_url u) ∧
    (∀ (md5hex : String → String) (job : Careerjet.CJRaw), job.url.getD "" = "" →
       Careerjet.make_job_id md5hex job =
         (md5hex ((job.title.getD "") ++ "-" ++ (job.company.getD "") ++ "-" ++
           (job.locations.getD ""))).take 16) ∧
    (∀ (clean : String → String) (raws : List Shomvob.ApiJob),
       (raws.map (Shomvob.parse_api_job clean)).length = raws.length) ∧
    (∀ (clean : String → String) (raw : Shomvob.ApiJob), raw.id = none →
       (Shomvob.parse_api_job clean raw).job_id = "") := by
  refine ⟨?_, ?_, ?_, ?_⟩
  · intro loc maxj cards j hj
    rcases collect_cards_provenance cards [] [] j hj with h | h
    · exact absurd h (List.not_mem_nil j)
    · exact h
  · intro md5hex job h
    simp [Careerjet.make_job_id, h]
  · intro clean raws
    exact List.length_map raws _
  · intro clean raw h
    simp [Shomvob.parse_api_job, h]

/-- Witness for C5 (amended) at concrete inputs. -/
theorem C5_identity_handling_witness :
    (∀ j ∈ Linkedin.collect_cards "Bangladesh" 80 [Samples.cardA] [] [],
       ∃ u, Linkedin.extract_job_id u = some j.job_id ∧
         j.url = Linkedin.clean_url u) ∧
    (Samples.cjNoUrl.url.getD "" = "" ∧
     Careerjet.make_job_id id Samples.cjNoUrl =
       (id ((Samples.cjNoUrl.title.getD "") ++ "-" ++
         (Samples.cjNoUrl.company.getD "") ++ "-" ++
         (Samples.cjNoUrl.locations.getD ""))).take 16) ∧
    (([Samples.rawWithId].map (Shomvob.parse_api_job id)).length = [Samples.rawWithId].length) ∧
    (Samples.rawNoId.id = none ∧ (Shomvob.parse_api_job id Samples.rawNoId).job_id = "") := by
  refine ⟨C5_identity_handling.1 "Bangladesh" 80 [Samples.cardA], ⟨rfl, ?_⟩, ?_, ⟨rfl, ?_⟩⟩
  · exact C5_identity_handling.2.1 id Samples.cjNoUrl rfl
  · exact C5_identity_handling.2.2.1 id [Samples.rawWithId]
  · exact C5_identity_handling.2.2.2 id Samples.rawNoId rfl

/-- With zero discovered identities, the reconciler removes nothing (the
guard fires on a non-empty snapshot; the difference is empty otherwise)
and finds nothing new. -/
theorem reconcile_empty_current (E : Finset String) :
    (reconcile E ∅).removed_ids = ∅ ∧ (reconcile E ∅).new_ids = ∅ := by
  constructor
  · rcases E.eq_empty_or_nonempty with hE | hE
    · subst hE
      simp [reconcile]
    · have hg : safety_guard E ∅ = true := by
        refine safety_guard_true_of_lt hE ?_
        rw [Finset.card_empty]
        have h0 : (0 : ℚ) < (E.card : ℚ) := by
          exact_mod_cast Finset.card_pos.mpr hE
        push_cast
        nlinarith
      simp [reconcile, hg]
  · simp [reconcile]

/-- A shomvob run over a successfully intercepted but empty API list
reconciles against an empty discovery and rewrites all three files:
snapshot content preserved, both deltas empty. -/
theorem shomvob_run_some_nil (snap : SnapshotFile Shomvob.SJob)
    (clean : String → String)
    (fetch : Shomvob.SJob → Except Unit (Option Shomvob.PageData)) :
    Shomvob.shomvob_run snap (some []) clean fetch
      = [(FileId.output, load_existing_jobs snap), (FileId.added, []),
         (FileId.removed, [])] := by
  have h := reconcile_empty_current ((load_existing_jobs snap).map (·.url)).toFinset
  simp only [Shomvob.shomvob_run, List.map_nil, List.toFinset_nil]
  simp [h.1, phase2_removed, phase2_kept, Finset.not_nonempty_empty,
    Shomvob.enrich_run]

/-- C6 (counterexample): a shomvob run whose discovery yields an empty
candidate list (not a failed interception) does not return early: it
performs all three persistence writes. -/
theorem C6_counterexample :
    Shomvob.shomvob_run (.valid [Samples.persistedSJob]) (some []) id
        (fun _ => .error ())
      = [(FileId.output, [Samples.persistedSJob]), (FileId.added, []),
         (FileId.removed, [])] := by
  rw [shomvob_run_some_nil]
  rfl

/-- C6 (amended): bdjobs returns with no writes whenever discovery yields
zero links (bdjobs.py:154-157).  Shomvob returns with no writes only when
the API response cannot be intercepted (`None`, shomvob.py:352-355); an
intercepted empty candidate list instead proceeds through reconciliation
— removals are suppressed (guard or empty difference) — and rewrites all
three files with the snapshot content preserved and empty deltas. -/
theorem C6_zero_candidates :
    (∀ (snap : SnapshotFile Bdjobs.Job)
       (fetch : String → Except Unit (List (String × Option String))),
         Bdjobs.bdjobs_run snap ∅ fetch = []) ∧
    (∀ (snap : SnapshotFile Shomvob.SJob) (clean : String → String)
       (fetch : Shomvob.SJob → Except Unit (Option Shomvob.PageData)),
         Shomvob.shomvob_run snap none clean fetch = []) ∧
    (∀ (snap : SnapshotFile Shomvob.SJob) (clean : String → String)
       (fetch : Shomvob.SJob → Except Unit (Option Shomvob.PageData)),
         Shomvob.shomvob_run snap (some []) clean fetch
           = [(FileId.output, load_existing_jobs snap), (FileId.added, []),
              (FileId.removed, [])]) := by
  refine ⟨?_, ?_, ?_⟩
  · intro snap fetch
    simp [Bdjobs.bdjobs_run]
  · intro snap clean fetch
    rfl
  · intro snap clean fetch
    exact shomvob_run_some_nil snap clean fetch

/-- C7: for every `runCount`, the rotation function returns exactly
`batchSize = min(perBatch, |universe|)` terms: the contiguous slice at
`(runCount mod ceil(|universe|/batchSize)) * batchSize`, wrapped around to
the start of the universe — element `i` of the batch is the universe
element at index `(start + i) mod |universe|`
(careerjet.py:137-150, linkedin.py:221-235). -/
theorem C7_keyword_rotation (kws : List String) (per run_count : Nat)
    (hper : 0 < per) (hkws : kws ≠ []) :
    ((Careerjet.get_keyword_batch kws per run_count).1).length
        = min per kws.length ∧
    ∀ i : Nat, i < min per kws.length →
      ((Careerjet.get_keyword_batch kws per run_count).1)[i]? =
        kws[((run_count % ((kws.length + min per kws.length - 1) / min per kws.length))
            * min per kws.length + i) % kws.length]? := by
  have htot : 0 < kws.length := List.length_pos.mpr hkws
  set total := kws.length with htotdef
  set bs := min per total with hbsdef
  have hbs : 0 < bs := lt_min hper htot
  have hbsle : bs ≤ total := min_le_right _ _
  set nb := (total + bs - 1) / bs with hnbdef
  have hmod : (total + bs - 1) % bs < bs := Nat.mod_lt _ hbs
  have hdm : nb * bs + (total + bs - 1) % bs = total + bs - 1 := by
    rw [Nat.mul_comm, hnbdef]
    exact Nat.div_add_mod _ _
  have hnb : 0 < nb := by
    rw [hnbdef]
    exact Nat.div_pos (by omega) hbs
  set idx := run_count % nb with hidxdef
  have hidx : idx < nb := Nat.mod_lt _ hnb
  set start := idx * bs with hstartdef
  have hstart : start < total := by
    have h1 : start ≤ (nb - 1) * bs := by
      rw [hstartdef]
      exact Nat.mul_le_mul_right bs (by omega)
    have h2 : (nb - 1) * bs = nb * bs - bs := by
      rw [Nat.sub_mul, one_mul]
    omega
  have hL1 : ((kws.drop start).take bs).length = min bs (total - start) := by
    simp [List.length_take, List.length_drop]
  have hbatch : (Careerjet.get_keyword_batch kws per run_count).1
      = (let b := (kws.drop start).take bs
         if b.length < bs then b ++ kws.take (bs - b.length) else b) := by
    simp only [Careerjet.get_keyword_batch, ← htotdef, ← hbsdef, ← hnbdef,
      ← hidxdef, ← hstartdef]
  rcases le_or_lt bs (total - start) with hbig | hsmall
  · have hfull : ((kws.drop start).take bs).length = bs := by
      rw [hL1]
      omega
    have hbatch' : (Careerjet.get_keyword_batch kws per run_count).1
        = (kws.drop start).take bs := by
      rw [hbatch]
      simp [hfull]
    constructor
    · rw [hbatch', hfull]
    · intro i hi
      rw [hbatch', List.getElem?_take_of_lt hi, List.getElem?_drop,
        Nat.mod_eq_of_lt (by omega)]
  · have hpart : ((kws.drop start).take bs).length = total - start := by
      rw [hL1]
      omega
    have hbatch' : (Careerjet.get_keyword_batch kws per run_count).1
        = (kws.drop start).take bs ++ kws.take (bs - (total - start)) := by
      rw [hbatch]
      simp only [hpart]
      rw [if_pos (by omega)]
    have hlen2 : (kws.take (bs - (total - start))).length = bs - (total - start) := by
      rw [List.length_take]
      omega
    constructor
    · rw [hbatch', List.length_append, hpart, hlen2]
      omega
    · intro i hi
      rw [hbatch']
      by_cases hiL : i < total - start
      · rw [List.getElem?_append_left (by omega : i < ((kws.drop start).take bs).length),
          List.getElem?_take_of_lt (by omega : i < bs), List.getElem?_drop,
          Nat.mod_eq_of_lt (by omega)]
      · rw [List.getElem?_append_right (by omega : ((kws.drop start).take bs).length ≤ i),
          hpart, List.getElem?_take_of_lt (by omega : i - (total - start) < bs - (total - start))]
        have harith : start + i = total + (i - (total - start)) := by omega
        rw [harith, Nat.add_mod_left, Nat.mod_eq_of_lt (by omega)]

/-- Witness for C7 at the careerjet constants and `runCount = 3`. -/
theorem C7_keyword_rotation_witness :
    0 < Careerjet.KEYWORDS_PER_BATCH ∧ Careerjet.SEARCH_KEYWORDS ≠ [] ∧
    (((Careerjet.get_keyword_batch Careerjet.SEARCH_KEYWORDS
          Careerjet.KEYWORDS_PER_BATCH 3).1).length
        = min Careerjet.KEYWORDS_PER_BATCH Careerjet.SEARCH_KEYWORDS.length ∧
      ∀ i : Nat, i < min Careerjet.KEYWORDS_PER_BATCH Careerjet.SEARCH_KEYWORDS.length →
        (((Careerjet.get_keyword_batch Careerjet.SEARCH_KEYWORDS
              Careerjet.KEYWORDS_PER_BATCH 3).1))[i]? =
          Careerjet.SEARCH_KEYWORDS[((3 % ((Careerjet.SEARCH_KEYWORDS.length +
              min Careerjet.KEYWORDS_PER_BATCH Careerjet.SEARCH_KEYWORDS.length - 1) /
              min Careerjet.KEYWORDS_PER_BATCH Careerjet.SEARCH_KEYWORDS.length))
              * min Careerjet.KEYWORDS_PER_BATCH Careerjet.SEARCH_KEYWORDS.length + i) %
              Careerjet.SEARCH_KEYWORDS.length]?) :=
  ⟨by decide, by decide,
   C7_keyword_rotation Careerjet.SEARCH_KEYWORDS Careerjet.KEYWORDS_PER_BATCH 3
     (by decide) (by decide)⟩

/-- Reversed first-occurrence order is an admissible enumeration of a
Python set: duplicate-free and membership-preserving. -/
theorem revOrder_contract : SetContract Samples.revOrder := by
  intro l
  refine ⟨List.nodup_dedup _, fun x => ?_⟩
  simp [Samples.revOrder, List.mem_dedup, List.mem_reverse]

set_option maxRecDepth 8000 in
/-- C8 (counterexample): the persisted used-terms update truncates
`list(set(...))` — an unordered enumeration.  Under the admissible
enumeration `revOrder`, accepting the new term `"zz"` over 100 persisted
terms evicts `"zz"` itself and keeps the oldest term `"0"`: the retained
100 entries are not the most recent with the oldest evicted first. -/
theorem C8_counterexample :
    SetContract Samples.revOrder ∧
    decide ("zz" ∈ Careerjet.update_used_ai_keywords Samples.revOrder
      Samples.used100 ["zz"]) = false ∧
    "0" ∈ Careerjet.update_used_ai_keywords Samples.revOrder Samples.used100 ["zz"] ∧
    (Careerjet.update_used_ai_keywords Samples.revOrder Samples.used100 ["zz"]).length
      = 100 := by
  refine ⟨revOrder_contract, by decide, by decide, by decide⟩

/-- C8 (amended): a suggested term is accepted only if its stripped,
lowercased form is in neither the static universe nor the used list
(case-insensitive), and — when any term is accepted — the persisted
used-terms list is capped to at most 100 entries drawn from the old terms
and the accepted terms; which entries survive depends on the unordered
set's enumeration, so oldest-first eviction is not guaranteed
(careerjet.py:238-242, 518-523; linkedin.py:1114-1118). -/
theorem C8_expansion_terms :
    (∀ (suggestions used : List String) (kw : String),
       kw ∈ Careerjet.ai_expand_keywords suggestions used →
         pyLower kw ∉ Careerjet.SEARCH_KEYWORDS.map pyLower ∧
         pyLower kw ∉ used.map pyLower) ∧
    (∀ (f : List String → List String), SetContract f →
       ∀ (used ai : List String), ai ≠ [] →
         (Careerjet.update_used_ai_keywords f used ai).length ≤ 100 ∧
         ∀ x ∈ Careerjet.update_used_ai_keywords f used ai, x ∈ used ∨ x ∈ ai) := by
  constructor
  · intro suggestions used kw hkw
    simp only [Careerjet.ai_expand_keywords] at hkw
    have hkw' := List.take_subset _ _ hkw
    obtain ⟨hmem, hpred⟩ := List.mem_filter.mp hkw'
    simp only [decide_eq_true_eq] at hpred
    rw [List.map_append] at hpred
    exact ⟨fun h => hpred (List.mem_append_left _ h),
      fun h => hpred (List.mem_append_right _ h)⟩
  · intro f hf used ai hai
    cases ai with
    | nil => exact absurd rfl hai
    | cons a rest =>
      simp only [Careerjet.update_used_ai_keywords, List.isEmpty_cons,
        Bool.false_eq_true, if_false]
      constructor
      · rw [List.length_drop]
        omega
      · intro x hx
        have hx' := List.mem_of_mem_drop hx
        have hx'' := ((hf (used ++ a :: rest)).2 x).mp hx'
        exact List.mem_append.mp hx''

/-- Witness for C8 (amended): a fresh suggestion against the careerjet
universe, and a cap update under first-occurrence set order. -/
theorem C8_expansion_terms_witness :
    (pyLower "ERP Specialist" ∉ Careerjet.SEARCH_KEYWORDS.map pyLower ∧
     pyLower "ERP Specialist" ∉ ["Used Term"].map pyLower) ∧
    ((Careerjet.update_used_ai_keywords (fun l => l.dedup) ["a"] ["b"]).length ≤ 100 ∧
     ∀ x ∈ Careerjet.update_used_ai_keywords (fun l => l.dedup) ["a"] ["b"],
       x ∈ ["a"] ∨ x ∈ ["b"]) :=
  ⟨C8_expansion_terms.1 ["ERP Specialist"] ["Used Term"] "ERP Specialist" (by decide),
   C8_expansion_terms.2 (fun l => l.dedup)
     (fun l => ⟨List.nodup_dedup l, fun x => List.mem_dedup⟩) ["a"] ["b"] (by decide)⟩

/-- C9: a missing or unparseable snapshot file loads as the empty list,
and with an empty existing set the safety guard is off and every
discovered identity is new (bdjobs.py:16-24, shomvob.py:17-25,
careerjet.py:296-304; guard and diff as in `reconcile`). -/
theorem C9_load_failures_empty :
    (∀ (α : Type), load_existing_jobs (SnapshotFile.missing : SnapshotFile α) = [] ∧
       load_existing_jobs (SnapshotFile.invalid : SnapshotFile α) = []) ∧
    (∀ current : Finset String,
       safety_guard ∅ current = false ∧
       (reconcile ∅ current).new_ids = current ∧
       (reconcile ∅ current).removed_ids = ∅) := by
  refine ⟨fun α => ⟨rfl, rfl⟩, fun current => ⟨?_, ?_, ?_⟩⟩
  · simp [safety_guard]
  · simp [reconcile]
  · simp [reconcile, safety_guard]

/-- C10: a LinkedIn snapshot record not rediscovered this run is dropped
only when some record carrying its identity was confirmed unavailable by
the per-url availability check; when the check's fetch raises, the check
returns `true` (still available), so mere non-rediscovery never removes a
record (linkedin.py:1013-1031, 1034-1057, 1243-1280). -/
theorem C10_removal_requires_confirmation :
    (∀ (env : String → Linkedin.FetchOutcome)
       (existing_jobs : List Linkedin.LSnapJob) (removed_ids : Finset String)
       (j : Linkedin.LSnapJob),
       j ∈ existing_jobs →
       j ∉ (Linkedin.linkedin_phase2 env existing_jobs removed_ids).2 →
         ∃ c, c ∈ existing_jobs ∧ c.job_id = j.job_id ∧
           (∃ id, c.job_id = some id ∧ id ∈ removed_ids) ∧
           Linkedin.check_job_availability env c = false) ∧
    (∀ (env : String → Linkedin.FetchOutcome) (j : Linkedin.LSnapJob),
       j.url ≠ "" → env j.url = .raised →
         Linkedin.check_job_availability env j = true) := by
  constructor
  · intro env existing_jobs removed_ids j hj hnot
    simp only [Linkedin.linkedin_phase2] at hnot
    split at hnot
    · exact absurd hj hnot
    · split at hnot
      · exact absurd hj hnot
      · have hjid : j.job_id ∈ Linkedin.availability_run env
            (existing_jobs.filter (fun j => match j.job_id with
              | some id => id ∈ removed_ids
              | none => false)) := by
          by_contra hcon
          exact hnot (List.mem_filter.mpr ⟨hj, by simpa using hcon⟩)
        simp only [Linkedin.availability_run, List.mem_toFinset,
          List.mem_filterMap] at hjid
        obtain ⟨c, hcmem, hceq⟩ := hjid
        by_cases hchk : Linkedin.check_job_availability env c = true
        · rw [if_pos hchk] at hceq
          exact Option.noConfusion hceq
        · have hchk' : Linkedin.check_job_availability env c = false := by
            cases h : Linkedin.check_job_availability env c
            · rfl
            · exact absurd h hchk
          rw [if_neg hchk] at hceq
          have hcid := Option.some.inj hceq
          obtain ⟨hcex, hcpred⟩ := List.mem_filter.mp hcmem
          cases hcjid : c.job_id with
          | none =>
            rw [hcjid] at hcpred
            exact Bool.noConfusion hcpred
          | some id =>
            rw [hcjid] at hcpred
            refine ⟨c, hcex, hcid, ⟨id, hcjid, ?_⟩, hchk'⟩
            exact of_decide_eq_true hcpred
  · intro env j hurl henv
    simp [Linkedin.check_job_availability, hurl, henv]

/-- Witness for C10 at a concrete record: the unavailable-page environment
removes it only through the confirming check, and the raising environment
retains it. -/
theorem C10_removal_requires_confirmation_witness :
    Samples.lsnapA ∈ [Samples.lsnapA] ∧
    Samples.lsnapA ∉ (Linkedin.linkedin_phase2 (fun _ => .page true)
        [Samples.lsnapA] {"1"}).2 ∧
    (∃ c, c ∈ [Samples.lsnapA] ∧ c.job_id = Samples.lsnapA.job_id ∧
      (∃ id, c.job_id = some id ∧ id ∈ ({"1"} : Finset String)) ∧
      Linkedin.check_job_availability (fun _ => .page true) c = false) ∧
    Linkedin.check_job_availability (fun _ => .raised) Samples.lsnapA = true :=
  ⟨by decide, by decide,
   C10_removal_requires_confirmation.1 (fun _ => .page true) [Samples.lsnapA]
     {"1"} Samples.lsnapA (by decide) (by decide),
   C10_removal_requires_confirmation.2 (fun _ => .raised) Samples.lsnapA
     (by decide) rfl⟩

end Theorems
